import Mathlib

/-!
Shallow embedding of the Artify server (`src/index.js`), an Express/MongoDB
REST API over two collections (artworks, favorites).  The file models the
request handlers of the serverless variant (the second half of the file,
which guards ids with `ObjectId.isValid`) and, where a claim depends on it,
the deployment variant (the first half, which has no guard).  MongoDB
operations are modelled on in-memory lists: `findOne` is `List.find?`,
`updateOne` updates the first match, `deleteOne` removes the first match,
`deleteMany` filters, `insertOne` appends, `find().sort().limit()` is a
merge sort followed by `take`.  JavaScript numbers as they appear here are
exact decimals or `NaN`, modelled by `JsNum` over `ℚ`.
-/

namespace Artify

/-- A JavaScript number as produced by `parseFloat`: either an exact decimal
value (modelled as a rational) or `NaN`. -/
inductive JsNum where
  | num (q : ℚ)
  | nan
deriving DecidableEq, Repr

/-- Value of a list of decimal digit characters, most significant first. -/
def digitsToNat (ds : List Char) : Nat :=
  ds.foldl (fun n c => 10 * n + (c.toNat - 48)) 0

/-- Split off the longest prefix of decimal digits. -/
def takeDigits : List Char → List Char × List Char
  | [] => ([], [])
  | c :: cs =>
    if c.isDigit then
      let p := takeDigits cs
      (c :: p.1, p.2)
    else ([], c :: cs)

/-- Model of the JavaScript builtin `parseFloat` on the character list of the
input, restricted to plain decimal notation (optional sign, integer part,
optional fraction part; leading whitespace skipped, trailing garbage
ignored).  When no digits are consumed the result is `NaN`. -/
def parseFloatChars (cs : List Char) : JsNum :=
  let cs0 := cs.dropWhile (fun c => c == ' ' || c == '\t' || c == '\n')
  let signed : Bool × List Char :=
    match cs0 with
    | '-' :: rest => (true, rest)
    | '+' :: rest => (false, rest)
    | _ => (false, cs0)
  let ipPart := takeDigits signed.2
  let fpPart : List Char :=
    match ipPart.2 with
    | '.' :: r2 => (takeDigits r2).1
    | _ => []
  if ipPart.1.isEmpty && fpPart.isEmpty then JsNum.nan
  else
    let mag : ℚ := (digitsToNat ipPart.1 : ℚ) + (digitsToNat fpPart : ℚ) / ((10 : ℚ) ^ fpPart.length)
    JsNum.num (if signed.1 then -mag else mag)

/-- `parseFloat` on a string. -/
def parseFloat (s : String) : JsNum := parseFloatChars s.data

/-- The JSON value supplied for the `price` field of a request body: absent,
a string, or a number. -/
inductive PriceField where
  | absent
  | str (s : String)
  | numV (q : ℚ)
deriving DecidableEq, Repr

/-- JavaScript truthiness of the supplied `price` value: `undefined`, the
empty string and `0` are falsy. -/
def PriceField.truthy : PriceField → Bool
  | .absent => false
  | .str s => !(s == "")
  | .numV q => !(q == 0)

/-- `parseFloat` applied to the supplied value (a number is converted to its
decimal string first, which parses back to the same value). -/
def parsePriceField : PriceField → JsNum
  | .absent => JsNum.nan
  | .str s => parseFloat s
  | .numV q => JsNum.num q

/-- The price stored by the create and update handlers:
`req.body.price ? parseFloat(req.body.price) : 0`. -/
def storedPrice (p : PriceField) : JsNum :=
  if p.truthy then parsePriceField p else JsNum.num 0

/-- Hexadecimal digit test, as used by `ObjectId.isValid`. -/
def isHexChar (c : Char) : Bool :=
  c.isDigit || ('a' ≤ c && c ≤ 'f') || ('A' ≤ c && c ≤ 'F')

/-- Model of `ObjectId.isValid` on strings: 24 hexadecimal characters.
The same predicate characterises the strings the `ObjectId` constructor
accepts; on any other string the constructor throws. -/
def isValidObjectId (s : String) : Bool :=
  s.length == 24 && s.data.all isHexChar

/-- An artwork document.  Optional fields hold `none` where the JavaScript
object would hold `undefined`; `createdAt` timestamps are abstracted to
naturals. -/
structure Artwork where
  id : String
  image : Option String
  title : Option String
  category : Option String
  mediumTools : Option String
  description : Option String
  dimensions : String
  price : JsNum
  visibility : Option String
  userName : Option String
  userEmail : Option String
  likesCount : Int
  likedBy : List String
  createdAt : Nat
  updatedAt : Option Nat
deriving DecidableEq, Repr

/-- A favorite document: the (artworkId, userId) bookmark pair together with
the denormalized artwork snapshot embedded at favorite time (`none` when the
artwork lookup returned `null`). -/
structure Favorite where
  artworkId : String
  userId : String
  artwork : Option Artwork
  createdAt : Nat
deriving DecidableEq, Repr

/-- The two MongoDB collections. -/
structure DB where
  artworks : List Artwork
  favorites : List Favorite
deriving DecidableEq, Repr

/-- `deleteOne`: remove the first element satisfying the filter. -/
def removeFirst (p : α → Bool) : List α → List α
  | [] => []
  | a :: as => if p a then as else a :: removeFirst p as

/-- `updateOne`: apply `f` to the first element satisfying the filter. -/
def updateFirst (p : α → Bool) (f : α → α) : List α → List α
  | [] => []
  | a :: as => if p a then f a :: as else a :: updateFirst p f as

/-- Result of `GET /api/artworks/:id`. -/
inductive GetResult where
  | ok (a : Artwork)
  | badRequest
  | notFound
  | serverError
deriving DecidableEq, Repr

/-- Result of `POST /api/artworks/:id/like`. -/
inductive LikeResult where
  | ok (isLiked : Bool) (likes : Int)
  | badRequest
  | notFound
deriving DecidableEq, Repr

/-- Result of the boolean-payload endpoints (liked-state, favorite toggle,
favorited-state). -/
inductive BoolResult where
  | ok (b : Bool)
  | badRequest
  | notFound
deriving DecidableEq, Repr

/-- Result of update and delete. -/
inductive SimpleResult where
  | ok
  | badRequest
  | notFound
deriving DecidableEq, Repr

/-- `GET /api/artworks/:id`, serverless variant: the `ObjectId.isValid`
guard answers 400 before any store access; otherwise one `findOne`.
The second component counts store queries issued. -/
def getArtworkById (db : DB) (id : String) : GetResult × Nat :=
  if isValidObjectId id then
    match db.artworks.find? (fun a => a.id == id) with
    | some a => (GetResult.ok a, 1)
    | none => (GetResult.notFound, 1)
  else (GetResult.badRequest, 0)

/-- `GET /api/artworks/:id`, deployment variant: no guard; on a malformed id
the `new ObjectId(id)` constructor throws before the `findOne`, the
handler's catch block answers 500. -/
def getArtworkByIdDeploy (db : DB) (id : String) : GetResult × Nat :=
  if isValidObjectId id then
    match db.artworks.find? (fun a => a.id == id) with
    | some a => (GetResult.ok a, 1)
    | none => (GetResult.notFound, 1)
  else (GetResult.serverError, 0)

/-- The like-toggle state change on a single artwork document: `$pull` of the
user from `likedBy` with `$inc likesCount: -1` when the user is a member,
`$push` with `$inc likesCount: 1` otherwise. -/
def toggleLike (userId : String) (a : Artwork) : Artwork :=
  if a.likedBy.contains userId then
    { a with likedBy := a.likedBy.filter (fun u => !(u == userId)),
             likesCount := a.likesCount - 1 }
  else
    { a with likedBy := a.likedBy ++ [userId],
             likesCount := a.likesCount + 1 }

/-- `POST /api/artworks/:id/like`, serverless variant: guard, `findOne`,
branch on membership, one `updateOne`, re-fetch for the reported count
(`updatedArtwork.likesCount || 0`). -/
def likeHandler (db : DB) (id userId : String) : DB × LikeResult × Nat :=
  if isValidObjectId id then
    match db.artworks.find? (fun a => a.id == id) with
    | none => (db, LikeResult.notFound, 1)
    | some artwork =>
      let isLiked := artwork.likedBy.contains userId
      let arts :=
        if isLiked then
          updateFirst (fun a => a.id == id)
            (fun a => { a with likedBy := a.likedBy.filter (fun u => !(u == userId)),
                               likesCount := a.likesCount - 1 }) db.artworks
        else
          updateFirst (fun a => a.id == id)
            (fun a => { a with likedBy := a.likedBy ++ [userId],
                               likesCount := a.likesCount + 1 }) db.artworks
      let likes : Int :=
        match arts.find? (fun a => a.id == id) with
        | some u => u.likesCount
        | none => 0
      ({ db with artworks := arts }, LikeResult.ok (!isLiked) likes, 3)
  else (db, LikeResult.badRequest, 0)

/-- `GET /api/artworks/:id/liked/:userId`, serverless variant. -/
def likedStateHandler (db : DB) (id userId : String) : BoolResult × Nat :=
  if isValidObjectId id then
    match db.artworks.find? (fun a => a.id == id) with
    | none => (BoolResult.notFound, 1)
    | some artwork => (BoolResult.ok (artwork.likedBy.contains userId), 1)
  else (BoolResult.badRequest, 0)

/-- The `findOne`/`deleteOne` filter of the favorites endpoints. -/
def favMatch (artworkId userId : String) (f : Favorite) : Bool :=
  f.artworkId == artworkId && f.userId == userId

/-- `POST /api/favorites/:artworkId`, serverless variant: guard, `findOne`
on the pair; if present `deleteOne`, otherwise fetch the artwork snapshot
(embedded as-is, even when `null`) and `insertOne`. -/
def favHandler (db : DB) (artworkId userId : String) (now : Nat) :
    DB × BoolResult × Nat :=
  if isValidObjectId artworkId then
    match db.favorites.find? (favMatch artworkId userId) with
    | some _ =>
        ({ db with favorites := removeFirst (favMatch artworkId userId) db.favorites },
         BoolResult.ok false, 2)
    | none =>
        let artwork := db.artworks.find? (fun a => a.id == artworkId)
        ({ db with favorites := db.favorites ++
             [{ artworkId := artworkId, userId := userId, artwork := artwork, createdAt := now }] },
         BoolResult.ok true, 3)
  else (db, BoolResult.badRequest, 0)

/-- `GET /api/favorites/:artworkId/:userId`, serverless variant:
`isFavorited: !!favorite`. -/
def favStateHandler (db : DB) (artworkId userId : String) : BoolResult × Nat :=
  if isValidObjectId artworkId then
    (BoolResult.ok (db.favorites.any (favMatch artworkId userId)), 1)
  else (BoolResult.badRequest, 0)

/-- Request body of `POST /api/artworks`. -/
structure CreateBody where
  image : Option String
  title : Option String
  category : Option String
  mediumTools : Option String
  description : Option String
  dimensions : Option String
  price : PriceField
  visibility : Option String
  userName : Option String
  userEmail : Option String
deriving DecidableEq, Repr

/-- JavaScript `x || ''` for a string-typed field: an absent field and the
empty string both give `''`. -/
def jsOrEmpty : Option String → String
  | some s => s
  | none => ""

/-- The document inserted by `POST /api/artworks`: the body fields with
`dimensions` defaulted, `price` coerced, `likesCount: 0`, `likedBy: []`,
`createdAt: now`. -/
def mkArtwork (b : CreateBody) (newId : String) (now : Nat) : Artwork :=
  { id := newId
    image := b.image
    title := b.title
    category := b.category
    mediumTools := b.mediumTools
    description := b.description
    dimensions := jsOrEmpty b.dimensions
    price := storedPrice b.price
    visibility := b.visibility
    userName := b.userName
    userEmail := b.userEmail
    likesCount := 0
    likedBy := []
    createdAt := now
    updatedAt := none }

/-- `POST /api/artworks`: `insertOne` of `mkArtwork`; the store generates
`newId` and the insert succeeds.  Returns the new id. -/
def createHandler (db : DB) (b : CreateBody) (newId : String) (now : Nat) :
    DB × String × Nat :=
  ({ db with artworks := db.artworks ++ [mkArtwork b newId now] }, newId, 1)

/-- Request body of `PUT /api/artworks/:id`, with the legacy aliases
`medium` and `imageUrl`. -/
structure UpdateBody where
  title : Option String
  category : Option String
  mediumTools : Option String
  medium : Option String
  description : Option String
  dimensions : Option String
  price : PriceField
  visibility : Option String
  image : Option String
  imageUrl : Option String
deriving DecidableEq, Repr

/-- JavaScript `a || b` on two optional string fields: `a` when truthy
(present and nonempty), else `b`. -/
def jsOr (a b : Option String) : Option String :=
  match a with
  | some s => if s == "" then b else some s
  | none => b

/-- The `$set` document of `PUT /api/artworks/:id` applied to a stored
artwork: replaces exactly title, category, mediumTools (aliased by medium),
description, dimensions, price, visibility, image (aliased by imageUrl) and
updatedAt. -/
def applyUpdate (a : Artwork) (u : UpdateBody) (now : Nat) : Artwork :=
  { a with
    title := u.title
    category := u.category
    mediumTools := jsOr u.mediumTools u.medium
    description := u.description
    dimensions := jsOrEmpty u.dimensions
    price := storedPrice u.price
    visibility := u.visibility
    image := jsOr u.image u.imageUrl
    updatedAt := some now }

/-- `PUT /api/artworks/:id`, serverless variant: guard, one `updateOne`;
success is reported when `modifiedCount > 0 || matchedCount > 0`. -/
def updateHandler (db : DB) (id : String) (u : UpdateBody) (now : Nat) :
    DB × SimpleResult × Nat :=
  if isValidObjectId id then
    match db.artworks.find? (fun a => a.id == id) with
    | some a =>
        let matchedCount : Nat := 1
        let modifiedCount : Nat := if applyUpdate a u now == a then 0 else 1
        let arts := updateFirst (fun x => x.id == id) (fun x => applyUpdate x u now) db.artworks
        let db1 := { db with artworks := arts }
        if modifiedCount > 0 || matchedCount > 0 then (db1, SimpleResult.ok, 1)
        else (db1, SimpleResult.notFound, 1)
    | none => (db, SimpleResult.notFound, 1)
  else (db, SimpleResult.badRequest, 0)

/-- `DELETE /api/artworks/:id`, serverless variant: guard, `deleteOne` on
artworks; when a document was deleted, `deleteMany` on favorites with the
same artwork id. -/
def deleteHandler (db : DB) (id : String) : DB × SimpleResult × Nat :=
  if isValidObjectId id then
    if db.artworks.any (fun a => a.id == id) then
      ({ artworks := removeFirst (fun a => a.id == id) db.artworks,
         favorites := db.favorites.filter (fun f => !(f.artworkId == id)) },
       SimpleResult.ok, 2)
    else (db, SimpleResult.notFound, 1)
  else (db, SimpleResult.badRequest, 0)

/-- The sort key of `GET /api/artworks/featured`: `createdAt` descending. -/
def byCreatedAtDesc (a b : Artwork) : Bool := b.createdAt ≤ a.createdAt

/-- `GET /api/artworks/featured`: `find().sort(\x7bcreatedAt: -1\x7d).limit(6)`. -/
def featuredArtworks (db : DB) : List Artwork :=
  (db.artworks.mergeSort byCreatedAtDesc).take 6

/-- The routes of the serverless variant. -/
inductive Route where
  | root
  | health
  | arts
  | listArtworks
  | featured
  | artworksByUser
  | artworkById
  | createArtwork
  | updateArtwork
  | deleteArtwork
  | likeToggle
  | likedState
  | favoriteToggle
  | favoritesByUser
  | favoritedState
  | countByUser
deriving DecidableEq, Repr

/-- Shape of a success-response body: a JSON object containing
`success: true`, a bare JSON array, or a JSON object without a `success`
field. -/
inductive BodyShape where
  | envelope
  | bareArray
  | bareObject
deriving DecidableEq, Repr

/-- The success-response body shape of each route of the serverless variant,
read off its `res.send` call: `/` sends `\x7bstatus, message\x7d` and `/health`
sends `\x7bstatus, timestamp\x7d` (no `success` field), `/arts` and
`/api/artworks/featured` send the result array bare, every other route sends
an object containing `success: true`. -/
def successBodyShape : Route → BodyShape
  | Route.root => BodyShape.bareObject
  | Route.health => BodyShape.bareObject
  | Route.arts => BodyShape.bareArray
  | Route.featured => BodyShape.bareArray
  | _ => BodyShape.envelope

/-- A sequence of sequential like-toggle calls on one artwork, one call per
listed user id. -/
def likeSeq (db : DB) (id : String) (users : List String) : DB :=
  users.foldl (fun d u => (likeHandler d id u).1) db

/-- A sequence of sequential favorite-toggle calls for one (artwork, user)
pair, one call per listed timestamp. -/
def favSeq (db : DB) (artworkId userId : String) (times : List Nat) : DB :=
  times.foldl (fun d t => (favHandler d artworkId userId t).1) db

/-- Whether a Favorite record exists for the pair. -/
def existsFav (db : DB) (artworkId userId : String) : Bool :=
  db.favorites.any (favMatch artworkId userId)

/-- Number of Favorite records for the pair; the data-model invariant says
this is at most one. -/
def favCount (db : DB) (artworkId userId : String) : Nat :=
  (db.favorites.filter (favMatch artworkId userId)).length

/-- The likes invariant of a single artwork document: the counter equals the
size of the member list, and the member list has no duplicates. -/
def likeInvariant (a : Artwork) : Prop :=
  a.likesCount = (a.likedBy.length : Int) ∧ a.likedBy.Nodup

/-- A well-formed ObjectId string, for concrete instantiations. -/
def validId : String := "aaaaaaaaaaaaaaaaaaaaaaaa"

/-- A second well-formed ObjectId string. -/
def validId2 : String := "bbbbbbbbbbbbbbbbbbbbbbbb"

/-- A concrete artwork document, for concrete instantiations. -/
def sampleArtwork : Artwork :=
  { id := validId
    image := none
    title := some "Sunset"
    category := some "Painting"
    mediumTools := none
    description := none
    dimensions := ""
    price := JsNum.num 0
    visibility := some "Public"
    userName := none
    userEmail := some "a@x.com"
    likesCount := 0
    likedBy := []
    createdAt := 0
    updatedAt := none }

/-- A concrete database holding only `sampleArtwork`. -/
def sampleDB : DB := { artworks := [sampleArtwork], favorites := [] }

/-- A concrete favorite record for `sampleArtwork`, for concrete
instantiations. -/
def sampleFav : Favorite :=
  { artworkId := validId, userId := "u1", artwork := some sampleArtwork, createdAt := 0 }

/-- A concrete database holding `sampleArtwork` and one favorite of it. -/
def sampleDB2 : DB := { artworks := [sampleArtwork], favorites := [sampleFav] }

/-- A concrete create-request body, for concrete instantiations. -/
def sampleBody : CreateBody :=
  { image := some "img"
    title := some "Sunset"
    category := some "Painting"
    mediumTools := some "Oil"
    description := some "d"
    dimensions := none
    price := PriceField.absent
    visibility := some "Public"
    userName := some "A"
    userEmail := some "a@x.com" }

/-- A concrete update-request body, for concrete instantiations. -/
def sampleUpdate : UpdateBody :=
  { title := some "Dawn"
    category := some "Painting"
    mediumTools := none
    medium := some "Ink"
    description := some "d2"
    dimensions := some "2x2"
    price := PriceField.absent
    visibility := some "Private"
    image := none
    imageUrl := some "img2"
    }

theorem find?_eq_some_split {α : Type} {p : α → Bool} {l : List α} {a : α}
    (h : l.find? p = some a) :
    ∃ l₁ l₂, l = l₁ ++ a :: l₂ ∧ (∀ x ∈ l₁, p x = false) ∧ p a = true := by
  induction l with
  | nil => simp at h
  | cons b t ih =>
    by_cases hb : p b
    · rw [List.find?_cons_of_pos _ hb] at h
      cases h
      exact ⟨[], t, rfl, by simp, hb⟩
    · rw [List.find?_cons_of_neg _ hb] at h
      obtain ⟨l₁, l₂, hl, h1, h2⟩ := ih h
      refine ⟨b :: l₁, l₂, by rw [hl]; rfl, ?_, h2⟩
      intro x hx
      rcases List.mem_cons.mp hx with rfl | hx
      · exact Bool.eq_false_iff.mpr hb
      · exact h1 x hx

theorem updateFirst_of_split {α : Type} (p : α → Bool) (f : α → α)
    (l₁ : List α) (a : α) (l₂ : List α)
    (h1 : ∀ x ∈ l₁, p x = false) (h2 : p a = true) :
    updateFirst p f (l₁ ++ a :: l₂) = l₁ ++ f a :: l₂ := by
  induction l₁ with
  | nil => simp [updateFirst, h2]
  | cons b t ih =>
    have hb := h1 b (List.mem_cons_self b t)
    simp only [List.cons_append, updateFirst, hb]
    simp [ih (fun x hx => h1 x (List.mem_cons_of_mem b hx))]

theorem removeFirst_of_split {α : Type} (p : α → Bool)
    (l₁ : List α) (a : α) (l₂ : List α)
    (h1 : ∀ x ∈ l₁, p x = false) (h2 : p a = true) :
    removeFirst p (l₁ ++ a :: l₂) = l₁ ++ l₂ := by
  induction l₁ with
  | nil => simp [removeFirst, h2]
  | cons b t ih =>
    have hb := h1 b (List.mem_cons_self b t)
    simp only [List.cons_append, removeFirst, hb]
    simp [ih (fun x hx => h1 x (List.mem_cons_of_mem b hx))]

theorem find?_append_cons {α : Type} (p : α → Bool) (l₁ : List α) (a : α) (l₂ : List α)
    (h1 : ∀ x ∈ l₁, p x = false) (h2 : p a = true) :
    (l₁ ++ a :: l₂).find? p = some a := by
  induction l₁ with
  | nil => simp [List.find?_cons_of_pos _ h2]
  | cons b t ih =>
    have hb := h1 b (List.mem_cons_self b t)
    rw [List.cons_append, List.find?_cons_of_neg _ (by simp [hb])]
    exact ih (fun x hx => h1 x (List.mem_cons_of_mem b hx))

theorem mem_updateFirst {α : Type} {p : α → Bool} {f : α → α} {l : List α} {x : α}
    (hx : x ∈ updateFirst p f l) : x ∈ l ∨ ∃ a ∈ l, x = f a := by
  induction l with
  | nil => simp [updateFirst] at hx
  | cons a t ih =>
    by_cases hp : p a
    · simp only [updateFirst, hp, if_true] at hx
      rcases List.mem_cons.mp hx with rfl | hx
      · exact Or.inr ⟨a, List.mem_cons_self a t, rfl⟩
      · exact Or.inl (List.mem_cons_of_mem a hx)
    · simp only [updateFirst, hp, if_false] at hx
      rcases List.mem_cons.mp hx with rfl | hx
      · exact Or.inl (List.mem_cons_self x t)
      · rcases ih hx with h | ⟨b, hb, rfl⟩
        · exact Or.inl (List.mem_cons_of_mem a h)
        · exact Or.inr ⟨b, List.mem_cons_of_mem a hb, rfl⟩

theorem countP_removeFirst {α : Type} (p : α → Bool) (l : List α) (h : l.any p = true) :
    (removeFirst p l).countP p = l.countP p - 1 := by
  induction l with
  | nil => simp at h
  | cons a t ih =>
    by_cases hp : p a
    · simp [removeFirst, hp, List.countP_cons]
    · have ht : t.any p = true := by
        rcases List.any_eq_true.mp h with ⟨x, hx, hpx⟩
        rcases List.mem_cons.mp hx with rfl | hx
        · exact absurd hpx hp
        · exact List.any_eq_true.mpr ⟨x, hx, hpx⟩
      simp [removeFirst, hp, List.countP_cons, ih ht]

theorem filter_ne_of_not_mem (l : List String) (u : String) (h : u ∉ l) :
    l.filter (fun x => !(x == u)) = l := by
  simp
  intro a ha hau
  exact h (hau ▸ ha)

theorem length_filter_ne_of_nodup (l : List String) (u : String)
    (hn : l.Nodup) (hm : u ∈ l) :
    ((l.filter (fun x => !(x == u))).length : Int) = (l.length : Int) - 1 := by
  induction l with
  | nil => simp at hm
  | cons b t ih =>
    rcases List.nodup_cons.mp hn with ⟨hb, ht⟩
    by_cases hbu : b = u
    · subst hbu
      simp [filter_ne_of_not_mem t b hb]
    · have hmt : u ∈ t := by
        rcases List.mem_cons.mp hm with rfl | hmt
        · exact absurd rfl hbu
        · exact hmt
      simp [hbu, ih ht hmt]

theorem toggleLike_id (u : String) (a : Artwork) : (toggleLike u a).id = a.id := by
  unfold toggleLike
  by_cases h : u ∈ a.likedBy <;> simp [h]

theorem toggleLike_of_mem (u : String) (a : Artwork) (h : u ∈ a.likedBy) :
    toggleLike u a =
      { a with likedBy := a.likedBy.filter (fun x => !(x == u)),
               likesCount := a.likesCount - 1 } := by
  simp [toggleLike, h]

theorem toggleLike_of_not_mem (u : String) (a : Artwork) (h : u ∉ a.likedBy) :
    toggleLike u a =
      { a with likedBy := a.likedBy ++ [u], likesCount := a.likesCount + 1 } := by
  simp [toggleLike, h]

theorem mem_toggleLike_iff (u : String) (a : Artwork) :
    u ∈ (toggleLike u a).likedBy ↔ u ∉ a.likedBy := by
  by_cases h : u ∈ a.likedBy
  · rw [toggleLike_of_mem u a h]
    simp [List.mem_filter, h]
  · rw [toggleLike_of_not_mem u a h]
    simp [h]

theorem contains_toggleLike (u : String) (a : Artwork) :
    (toggleLike u a).likedBy.contains u = !(a.likedBy.contains u) := by
  by_cases h : u ∈ a.likedBy
  · have h2 : u ∉ (toggleLike u a).likedBy := fun hc => (mem_toggleLike_iff u a).mp hc h
    simp [h, h2]
  · have h2 : u ∈ (toggleLike u a).likedBy := (mem_toggleLike_iff u a).mpr h
    simp [h, h2]

theorem toggleLike_toggleLike_likesCount (u : String) (a : Artwork) :
    (toggleLike u (toggleLike u a)).likesCount = a.likesCount := by
  by_cases h : u ∈ a.likedBy
  · have h2 : u ∉ (toggleLike u a).likedBy := fun hc => (mem_toggleLike_iff u a).mp hc h
    rw [toggleLike_of_not_mem u _ h2]
    rw [toggleLike_of_mem u a h]
    ring
  · have h2 : u ∈ (toggleLike u a).likedBy := (mem_toggleLike_iff u a).mpr h
    rw [toggleLike_of_mem u _ h2]
    rw [toggleLike_of_not_mem u a h]
    ring

theorem toggleLike_toggleLike_contains (u : String) (a : Artwork) :
    (toggleLike u (toggleLike u a)).likedBy.contains u = a.likedBy.contains u := by
  by_cases h : u ∈ a.likedBy
  · have h1 : u ∉ (toggleLike u a).likedBy := fun hc => (mem_toggleLike_iff u a).mp hc h
    have h2 : u ∈ (toggleLike u (toggleLike u a)).likedBy := (mem_toggleLike_iff u _).mpr h1
    simp [h, h2]
  · have h1 : u ∈ (toggleLike u a).likedBy := (mem_toggleLike_iff u a).mpr h
    have h2 : u ∉ (toggleLike u (toggleLike u a)).likedBy :=
      fun hc => (mem_toggleLike_iff u _).mp hc h1
    simp [h, h2]

theorem likeInvariant_toggleLike {a : Artwork} (u : String) (h : likeInvariant a) :
    likeInvariant (toggleLike u a) := by
  obtain ⟨hc, hn⟩ := h
  by_cases hm : u ∈ a.likedBy
  · rw [toggleLike_of_mem u a hm]
    constructor
    · have hlen := length_filter_ne_of_nodup a.likedBy u hn hm
      have hpos : 0 < a.likedBy.length := List.length_pos.mpr (List.ne_nil_of_mem hm)
      simp only []
      omega
    · exact hn.filter _
  · rw [toggleLike_of_not_mem u a hm]
    constructor
    · simp [hc]
    · simp [List.nodup_append, hn, hm]

theorem likeHandler_spec {db : DB} {id u : String} {a : Artwork}
    (hv : isValidObjectId id = true)
    (hf : db.artworks.find? (fun x => x.id == id) = some a) :
    ∃ l₁ l₂, db.artworks = l₁ ++ a :: l₂ ∧
      (∀ x ∈ l₁, (x.id == id) = false) ∧ (a.id == id) = true ∧
      likeHandler db id u =
        ({ db with artworks := l₁ ++ toggleLike u a :: l₂ },
         LikeResult.ok (!(a.likedBy.contains u)) (toggleLike u a).likesCount, 3) := by
  obtain ⟨l₁, l₂, hl, h1, h2⟩ := find?_eq_some_split hf
  refine ⟨l₁, l₂, hl, h1, h2, ?_⟩
  have hpt : ((toggleLike u a).id == id) = true := by rw [toggleLike_id]; exact h2
  have hfind2 : (l₁ ++ toggleLike u a :: l₂).find? (fun x => x.id == id) =
      some (toggleLike u a) := find?_append_cons _ l₁ _ l₂ h1 hpt
  by_cases hm : u ∈ a.likedBy
  · have harts : updateFirst (fun x => x.id == id)
        (fun x => { x with likedBy := x.likedBy.filter (fun v => !(v == u)),
                           likesCount := x.likesCount - 1 }) db.artworks =
        l₁ ++ toggleLike u a :: l₂ := by
      rw [hl, updateFirst_of_split _ _ l₁ a l₂ h1 h2, toggleLike_of_mem u a hm]
    simp only [likeHandler, hv, hf, if_true]
    simp only [List.contains_eq_any_beq]
    have hml : a.likedBy.any (u == ·) = true := List.any_eq_true.mpr ⟨u, hm, by simp⟩
    simp only [hml, if_true, harts, hfind2]
  · have hm' : a.likedBy.contains u = false := by simp [hm]
    have harts : updateFirst (fun x => x.id == id)
        (fun x => { x with likedBy := x.likedBy ++ [u],
                           likesCount := x.likesCount + 1 }) db.artworks =
        l₁ ++ toggleLike u a :: l₂ := by
      rw [hl, updateFirst_of_split _ _ l₁ a l₂ h1 h2, toggleLike_of_not_mem u a hm]
    simp only [likeHandler, hv, hf, if_true]
    simp only [hm', Bool.false_eq_true, if_false, harts, hfind2]

theorem likeHandler_invalid (db : DB) (id u : String) (hv : isValidObjectId id = false) :
    likeHandler db id u = (db, LikeResult.badRequest, 0) := by
  simp [likeHandler, hv]

theorem likeHandler_none (db : DB) (id u : String) (hv : isValidObjectId id = true)
    (hf : db.artworks.find? (fun x => x.id == id) = none) :
    likeHandler db id u = (db, LikeResult.notFound, 1) := by
  simp [likeHandler, hv, hf]

theorem likeHandler_preserves_inv (db : DB) (id u : String)
    (h : ∀ a ∈ db.artworks, a.id = id → likeInvariant a) :
    ∀ a ∈ (likeHandler db id u).1.artworks, a.id = id → likeInvariant a := by
  by_cases hv : isValidObjectId id
  · cases hf : db.artworks.find? (fun x => x.id == id) with
    | none => rw [likeHandler_none db id u hv hf]; exact h
    | some a0 =>
      obtain ⟨l₁, l₂, hl, h1, h2, heq⟩ := likeHandler_spec hv hf
      rw [heq]
      intro x hx hxid
      rcases List.mem_append.mp hx with hx1 | hx2
      · exact h x (by rw [hl]; exact List.mem_append.mpr (Or.inl hx1)) hxid
      · rcases List.mem_cons.mp hx2 with rfl | hx3
        · have ha0 : a0.id = id := by simpa using h2
          have ha0mem : a0 ∈ db.artworks := by rw [hl]; simp
          exact likeInvariant_toggleLike u (h a0 ha0mem ha0)
        · exact h x (by rw [hl]; exact List.mem_append.mpr (Or.inr (List.mem_cons_of_mem _ hx3))) hxid
  · rw [likeHandler_invalid db id u (by simpa using hv)]
    exact h

theorem likeSeq_preserves_inv (id : String) (users : List String) :
    ∀ db : DB, (∀ a ∈ db.artworks, a.id = id → likeInvariant a) →
      ∀ a ∈ (likeSeq db id users).artworks, a.id = id → likeInvariant a := by
  induction users with
  | nil => intro db h; simpa [likeSeq] using h
  | cons v vs ih =>
    intro db h
    have hstep := likeHandler_preserves_inv db id v h
    have hcons : likeSeq db id (v :: vs) = likeSeq (likeHandler db id v).1 id vs := by
      simp [likeSeq]
    rw [hcons]
    exact ih _ hstep

/-- C1: for every artwork created via the create operation (which initializes
`likesCount` to 0 and `likedBy` to the empty list), after any sequence of
sequential like-toggle calls on that artwork by any users, the artwork's
`likesCount` field equals the number of elements of its `likedBy` list. -/
theorem c1_likesCount_matches_likedBy (db₀ : DB) (b : CreateBody) (newId : String)
    (now : Nat) (users : List String)
    (hfresh : ∀ a ∈ db₀.artworks, a.id ≠ newId) :
    ∀ a ∈ (likeSeq (createHandler db₀ b newId now).1 newId users).artworks,
      a.id = newId → a.likesCount = (a.likedBy.length : Int) := by
  have hinit : ∀ a ∈ (createHandler db₀ b newId now).1.artworks,
      a.id = newId → likeInvariant a := by
    intro a ha hid
    simp only [createHandler] at ha
    rcases List.mem_append.mp ha with h0 | h1
    · exact absurd hid (hfresh a h0)
    · rcases List.mem_singleton.mp h1 with rfl
      exact ⟨by simp [mkArtwork], by simp [mkArtwork]⟩
  intro a ha hid
  exact (likeSeq_preserves_inv newId users _ hinit a ha hid).1

/-- Witness for C1: creating an artwork into an empty store and toggling a
like once yields an artwork whose counter equals the size of its member
list. -/
theorem c1_likesCount_matches_likedBy_witness :
    (toggleLike "u1" (mkArtwork sampleBody validId 0)).likesCount =
      ((toggleLike "u1" (mkArtwork sampleBody validId 0)).likedBy.length : Int) :=
  c1_likesCount_matches_likedBy { artworks := [], favorites := [] } sampleBody validId 0
    ["u1"] (by simp) _ (by decide) (by decide)

/-- C2: for every existing artwork and every user id, performing the
like-toggle operation twice in sequence restores the artwork's `likedBy`
membership for that user and its `likesCount` to their values before the
first toggle, and the second response's `isLiked` equals the pre-toggle
liked state. -/
theorem c2_double_like_toggle (db : DB) (id u : String) (a : Artwork)
    (hv : isValidObjectId id = true)
    (hf : db.artworks.find? (fun x => x.id == id) = some a) :
    ∃ a₂ : Artwork,
      (likeHandler (likeHandler db id u).1 id u).1.artworks.find?
          (fun x => x.id == id) = some a₂ ∧
      a₂.likedBy.contains u = a.likedBy.contains u ∧
      a₂.likesCount = a.likesCount ∧
      (likeHandler (likeHandler db id u).1 id u).2.1 =
        LikeResult.ok (a.likedBy.contains u) a.likesCount := by
  obtain ⟨l₁, l₂, hl, h1, h2, heq⟩ := likeHandler_spec hv hf
  have hf1 : (likeHandler db id u).1.artworks.find? (fun x => x.id == id) =
      some (toggleLike u a) := by
    rw [heq]
    exact find?_append_cons _ l₁ _ l₂ h1 (by rw [toggleLike_id]; exact h2)
  obtain ⟨m₁, m₂, hm, hm1, hm2, heq2⟩ := likeHandler_spec hv hf1
  refine ⟨toggleLike u (toggleLike u a), ?_, ?_, ?_, ?_⟩
  · rw [heq2]
    exact find?_append_cons _ m₁ _ m₂ hm1 (by rw [toggleLike_id, toggleLike_id]; exact h2)
  · exact toggleLike_toggleLike_contains u a
  · exact toggleLike_toggleLike_likesCount u a
  · rw [heq2]
    show LikeResult.ok (!(toggleLike u a).likedBy.contains u)
        (toggleLike u (toggleLike u a)).likesCount =
      LikeResult.ok (a.likedBy.contains u) a.likesCount
    rw [contains_toggleLike, Bool.not_not, toggleLike_toggleLike_likesCount]

/-- Witness for C2 at a concrete database, artwork and user. -/
theorem c2_double_like_toggle_witness :
    ∃ a₂ : Artwork,
      (likeHandler (likeHandler sampleDB validId "u1").1 validId "u1").1.artworks.find?
          (fun x => x.id == validId) = some a₂ ∧
      a₂.likedBy.contains "u1" = sampleArtwork.likedBy.contains "u1" ∧
      a₂.likesCount = sampleArtwork.likesCount ∧
      (likeHandler (likeHandler sampleDB validId "u1").1 validId "u1").2.1 =
        LikeResult.ok (sampleArtwork.likedBy.contains "u1") sampleArtwork.likesCount :=
  c2_double_like_toggle sampleDB validId "u1" sampleArtwork (by decide) (by decide)

theorem favHandler_some (db : DB) (aid uid : String) (t : Nat)
    (hv : isValidObjectId aid = true) {f : Favorite}
    (hf : db.favorites.find? (favMatch aid uid) = some f) :
    favHandler db aid uid t =
      ({ db with favorites := removeFirst (favMatch aid uid) db.favorites },
       BoolResult.ok false, 2) := by
  simp [favHandler, hv, hf]

theorem favHandler_none (db : DB) (aid uid : String) (t : Nat)
    (hv : isValidObjectId aid = true)
    (hf : db.favorites.find? (favMatch aid uid) = none) :
    favHandler db aid uid t =
      ({ db with favorites := db.favorites ++
          [{ artworkId := aid, userId := uid,
             artwork := db.artworks.find? (fun a => a.id == aid), createdAt := t }] },
       BoolResult.ok true, 3) := by
  simp [favHandler, hv, hf]

theorem existsFav_iff_countP_pos (db : DB) (aid uid : String) :
    existsFav db aid uid = true ↔ 0 < db.favorites.countP (favMatch aid uid) := by
  rw [existsFav, List.any_eq_true, List.countP_pos_iff]

theorem favCount_eq_countP (db : DB) (aid uid : String) :
    favCount db aid uid = db.favorites.countP (favMatch aid uid) :=
  (List.countP_eq_length_filter _ _).symm

theorem favHandler_flip (db : DB) (aid uid : String) (t : Nat)
    (hv : isValidObjectId aid = true) (hinv : favCount db aid uid ≤ 1) :
    existsFav (favHandler db aid uid t).1 aid uid = !(existsFav db aid uid) ∧
    favCount (favHandler db aid uid t).1 aid uid ≤ 1 ∧
    (favHandler db aid uid t).2.1 =
      BoolResult.ok (existsFav (favHandler db aid uid t).1 aid uid) := by
  cases hf : db.favorites.find? (favMatch aid uid) with
  | none =>
    rw [favHandler_none db aid uid t hv hf]
    have hall : ∀ f ∈ db.favorites, ¬ favMatch aid uid f = true := List.find?_eq_none.mp hf
    have hold : existsFav db aid uid = false := by
      rw [existsFav, List.any_eq_false]
      exact hall
    have hnewrec : favMatch aid uid
        { artworkId := aid, userId := uid,
          artwork := db.artworks.find? (fun a => a.id == aid), createdAt := t } = true := by
      simp [favMatch]
    constructor
    · have ha : db.favorites.any (favMatch aid uid) = false := hold
      simp [existsFav, List.any_append, hnewrec, ha]
    constructor
    · rw [favCount_eq_countP]
      simp only [List.countP_append]
      have h0 : db.favorites.countP (favMatch aid uid) = 0 := by
        rw [List.countP_eq_zero]
        exact hall
      rw [h0]
      simp [List.countP_cons, hnewrec]
    · have : existsFav
          { db with favorites := db.favorites ++
              [{ artworkId := aid, userId := uid,
                 artwork := db.artworks.find? (fun a => a.id == aid), createdAt := t }] }
          aid uid = true := by
        rw [existsFav]
        simp only [List.any_append, List.any_cons, List.any_nil, hnewrec]
        simp
      rw [this]
  | some f =>
    rw [favHandler_some db aid uid t hv hf]
    have hmem : f ∈ db.favorites := List.mem_of_find?_eq_some hf
    have hpf : favMatch aid uid f = true := List.find?_some hf
    have hany : db.favorites.any (favMatch aid uid) = true :=
      List.any_eq_true.mpr ⟨f, hmem, hpf⟩
    have hold : existsFav db aid uid = true := hany
    have hcnt1 : db.favorites.countP (favMatch aid uid) = 1 := by
      have hpos : 0 < db.favorites.countP (favMatch aid uid) :=
        (existsFav_iff_countP_pos db aid uid).mp hold
      have hle : db.favorites.countP (favMatch aid uid) ≤ 1 := by
        rw [← favCount_eq_countP]; exact hinv
      omega
    have hcnt0 : (removeFirst (favMatch aid uid) db.favorites).countP (favMatch aid uid) = 0 := by
      rw [countP_removeFirst _ _ hany, hcnt1]
    have hnew : existsFav
        { db with favorites := removeFirst (favMatch aid uid) db.favorites } aid uid = false := by
      rw [existsFav, List.any_eq_false]
      intro x hx hpx
      have : 0 < (removeFirst (favMatch aid uid) db.favorites).countP (favMatch aid uid) :=
        List.countP_pos_iff.mpr ⟨x, hx, hpx⟩
      omega
    refine ⟨by rw [hnew, hold]; rfl, ?_, by rw [hnew]⟩
    rw [favCount_eq_countP]
    rw [hcnt0]
    exact Nat.zero_le 1

theorem xor_not_right (a b : Bool) : xor a (!b) = xor (!a) b := by
  cases a <;> cases b <;> rfl

theorem succ_mod_two_beq (n : Nat) : ((n + 1) % 2 == 1) = !(n % 2 == 1) := by
  by_cases h : n % 2 = 1
  · have h2 : (n + 1) % 2 = 0 := by omega
    simp [h, h2]
  · have h0 : n % 2 = 0 := by omega
    have h2 : (n + 1) % 2 = 1 := by omega
    simp [h0, h2]

theorem favSeq_parity (aid uid : String) (hv : isValidObjectId aid = true) :
    ∀ (times : List Nat) (db : DB), favCount db aid uid ≤ 1 →
      existsFav (favSeq db aid uid times) aid uid =
        xor (times.length % 2 == 1) (existsFav db aid uid) ∧
      favCount (favSeq db aid uid times) aid uid ≤ 1 := by
  intro times
  induction times with
  | nil =>
    intro db h
    refine ⟨?_, by simpa [favSeq] using h⟩
    simp [favSeq]
  | cons t ts ih =>
    intro db h
    obtain ⟨hflip, hinv2, _⟩ := favHandler_flip db aid uid t hv h
    have hseq : favSeq db aid uid (t :: ts) = favSeq (favHandler db aid uid t).1 aid uid ts := by
      simp [favSeq]
    obtain ⟨he, hi⟩ := ih (favHandler db aid uid t).1 hinv2
    rw [hseq] at *
    refine ⟨?_, hi⟩
    rw [he, hflip]
    rw [xor_not_right]
    rw [List.length_cons, succ_mod_two_beq]

/-- C3: for every existing artwork and user id, two sequential
favorite-toggles restore the existence of the Favorite record for the pair,
each response's `isFavorited` reflects the post-toggle existence, and after
an odd number of sequential toggles the record exists iff it did not exist
initially. -/
theorem c3_favorite_toggle (db : DB) (aid uid : String) (t₁ t₂ : Nat) (times : List Nat)
    (hv : isValidObjectId aid = true)
    (hart : ∃ x ∈ db.artworks, x.id = aid)
    (hinv : favCount db aid uid ≤ 1) :
    existsFav (favSeq db aid uid [t₁, t₂]) aid uid = existsFav db aid uid ∧
    (favHandler db aid uid t₁).2.1 =
      BoolResult.ok (existsFav (favHandler db aid uid t₁).1 aid uid) ∧
    (favHandler (favHandler db aid uid t₁).1 aid uid t₂).2.1 =
      BoolResult.ok (existsFav (favHandler (favHandler db aid uid t₁).1 aid uid t₂).1 aid uid) ∧
    (times.length % 2 = 1 →
      existsFav (favSeq db aid uid times) aid uid = !(existsFav db aid uid)) := by
  obtain ⟨hflip1, hinv1, hres1⟩ := favHandler_flip db aid uid t₁ hv hinv
  obtain ⟨hflip2, hinv2, hres2⟩ := favHandler_flip _ aid uid t₂ hv hinv1
  refine ⟨?_, hres1, hres2, ?_⟩
  · have hs : favSeq db aid uid [t₁, t₂] =
        (favHandler (favHandler db aid uid t₁).1 aid uid t₂).1 := by
      simp [favSeq]
    rw [hs, hflip2, hflip1, Bool.not_not]
  · intro hodd
    obtain ⟨he, _⟩ := favSeq_parity aid uid hv times db hinv
    rw [he, hodd]
    simp

/-- Witness for C3 at a concrete database, artwork, user and toggle times. -/
theorem c3_favorite_toggle_witness :
    existsFav (favSeq sampleDB validId "u1" [1, 2]) validId "u1" =
      existsFav sampleDB validId "u1" ∧
    (favHandler sampleDB validId "u1" 1).2.1 =
      BoolResult.ok (existsFav (favHandler sampleDB validId "u1" 1).1 validId "u1") ∧
    (favHandler (favHandler sampleDB validId "u1" 1).1 validId "u1" 2).2.1 =
      BoolResult.ok (existsFav
        (favHandler (favHandler sampleDB validId "u1" 1).1 validId "u1" 2).1 validId "u1") ∧
    ([5].length % 2 = 1 →
      existsFav (favSeq sampleDB validId "u1" [5]) validId "u1" =
        !(existsFav sampleDB validId "u1")) :=
  c3_favorite_toggle sampleDB validId "u1" 1 2 [5] (by decide)
    ⟨sampleArtwork, by simp [sampleDB], by decide⟩ (by decide)

/-- C4 counterexample: a truthy non-numeric price string is stored as `NaN`,
not `0`; the claim that non-numeric input stores `0` fails at
`price: "abc"`. -/
theorem c4_price_counterexample :
    storedPrice (PriceField.str "abc") ≠ JsNum.num 0 ∧
    storedPrice (PriceField.str "abc") = JsNum.nan := by
  constructor
  · decide
  · decide

/-- C4 (amended): the stored price is the floating-point parse of the
supplied price field whenever that field is truthy (so `"12.50"` stores
`12.5` but a truthy non-numeric string such as `"abc"` stores `NaN`), and an
absent or falsy price field stores `0`. -/
theorem c4_price_parse_amended (s : String) (hs : s ≠ "") :
    storedPrice (PriceField.str s) = parseFloat s ∧
    storedPrice PriceField.absent = JsNum.num 0 ∧
    storedPrice (PriceField.str "") = JsNum.num 0 ∧
    parseFloat "12.50" = JsNum.num (25 / 2) ∧
    parseFloat "abc" = JsNum.nan := by
  refine ⟨?_, by rfl, by rfl, by with_unfolding_all rfl, by decide⟩
  simp [storedPrice, PriceField.truthy, parsePriceField, hs]

/-- Witness for the amended C4 at the concrete string "abc". -/
theorem c4_price_parse_amended_witness :
    storedPrice (PriceField.str "abc") = parseFloat "abc" ∧
    storedPrice PriceField.absent = JsNum.num 0 ∧
    storedPrice (PriceField.str "") = JsNum.num 0 ∧
    parseFloat "12.50" = JsNum.num (25 / 2) ∧
    parseFloat "abc" = JsNum.nan :=
  c4_price_parse_amended "abc" (by decide)

/-- C5 counterexample: in the deployment variant, the malformed id
"not-an-id" makes the get-by-id handler answer 500 (the ObjectId constructor
throws into the catch block), not the 400 InvalidArgument the claim states. -/
theorem c5_invalid_id_counterexample :
    getArtworkByIdDeploy { artworks := [], favorites := [] } "not-an-id" =
      (GetResult.serverError, 0) ∧
    GetResult.serverError ≠ GetResult.badRequest := by
  constructor
  · decide
  · decide

/-- C5 (amended): on a malformed id, every id-taking endpoint of the
serverless variant answers 400 and issues no store query; in the deployment
variant the ObjectId constructor throws and the handler answers 500, still
issuing no store query. -/
theorem c5_invalid_id_amended (db : DB) (id uid : String) (u : UpdateBody) (now t : Nat)
    (h : isValidObjectId id = false) :
    getArtworkById db id = (GetResult.badRequest, 0) ∧
    updateHandler db id u now = (db, SimpleResult.badRequest, 0) ∧
    deleteHandler db id = (db, SimpleResult.badRequest, 0) ∧
    likeHandler db id uid = (db, LikeResult.badRequest, 0) ∧
    likedStateHandler db id uid = (BoolResult.badRequest, 0) ∧
    favHandler db id uid t = (db, BoolResult.badRequest, 0) ∧
    favStateHandler db id uid = (BoolResult.badRequest, 0) ∧
    getArtworkByIdDeploy db id = (GetResult.serverError, 0) := by
  refine ⟨?_, ?_, ?_, ?_, ?_, ?_, ?_, ?_⟩ <;>
    simp [getArtworkById, updateHandler, deleteHandler, likeHandler, likedStateHandler,
      favHandler, favStateHandler, getArtworkByIdDeploy, h]

/-- Witness for the amended C5 at the concrete malformed id "not-an-id". -/
theorem c5_invalid_id_amended_witness :
    getArtworkById sampleDB "not-an-id" = (GetResult.badRequest, 0) ∧
    updateHandler sampleDB "not-an-id" sampleUpdate 7 = (sampleDB, SimpleResult.badRequest, 0) ∧
    deleteHandler sampleDB "not-an-id" = (sampleDB, SimpleResult.badRequest, 0) ∧
    likeHandler sampleDB "not-an-id" "u1" = (sampleDB, LikeResult.badRequest, 0) ∧
    likedStateHandler sampleDB "not-an-id" "u1" = (BoolResult.badRequest, 0) ∧
    favHandler sampleDB "not-an-id" "u1" 3 = (sampleDB, BoolResult.badRequest, 0) ∧
    favStateHandler sampleDB "not-an-id" "u1" = (BoolResult.badRequest, 0) ∧
    getArtworkByIdDeploy sampleDB "not-an-id" = (GetResult.serverError, 0) :=
  c5_invalid_id_amended sampleDB "not-an-id" "u1" sampleUpdate 7 3 (by decide)

/-- C6: for every update request with a well-formed id, the operation
reports success iff a record with that id exists (matching counts as
success regardless of how many fields changed value), and reports NotFound
iff no record matches. -/
theorem c6_update_match_is_success (db : DB) (id : String) (u : UpdateBody) (now : Nat)
    (hv : isValidObjectId id = true) :
    ((updateHandler db id u now).2.1 = SimpleResult.ok ↔ ∃ a ∈ db.artworks, a.id = id) ∧
    ((updateHandler db id u now).2.1 = SimpleResult.notFound ↔
      ¬ ∃ a ∈ db.artworks, a.id = id) := by
  cases hf : db.artworks.find? (fun x => x.id == id) with
  | none =>
    have hres : (updateHandler db id u now).2.1 = SimpleResult.notFound := by
      simp [updateHandler, hv, hf]
    have hnone : ¬ ∃ a ∈ db.artworks, a.id = id := by
      rintro ⟨a, ha, hid⟩
      have := List.find?_eq_none.mp hf a ha
      simp [hid] at this
    rw [hres]
    simp [hnone]
  | some a =>
    have hres : (updateHandler db id u now).2.1 = SimpleResult.ok := by
      simp [updateHandler, hv, hf]
    have hex : ∃ x ∈ db.artworks, x.id = id :=
      ⟨a, List.mem_of_find?_eq_some hf, by simpa using List.find?_some hf⟩
    rw [hres]
    simp [hex]

/-- Witness for C6 at a concrete database and id. -/
theorem c6_update_match_is_success_witness :
    ((updateHandler sampleDB validId sampleUpdate 7).2.1 = SimpleResult.ok ↔
      ∃ a ∈ sampleDB.artworks, a.id = validId) ∧
    ((updateHandler sampleDB validId sampleUpdate 7).2.1 = SimpleResult.notFound ↔
      ¬ ∃ a ∈ sampleDB.artworks, a.id = validId) :=
  c6_update_match_is_success sampleDB validId sampleUpdate 7 (by decide)

theorem find?_removeFirst_of_nodup (l : List Artwork) (id : String)
    (hnodup : (l.map Artwork.id).Nodup) :
    (removeFirst (fun a => a.id == id) l).find? (fun a => a.id == id) = none := by
  induction l with
  | nil => simp [removeFirst]
  | cons a t ih =>
    have hmap : (List.map Artwork.id (a :: t)).Nodup := hnodup
    rw [List.map_cons, List.nodup_cons] at hmap
    obtain ⟨ha, ht⟩ := hmap
    by_cases hp : a.id = id
    · subst hp
      simp only [removeFirst, beq_self_eq_true, if_true]
      rw [List.find?_eq_none]
      intro x hx
      simp only [beq_iff_eq]
      intro hxid
      exact ha (hxid ▸ List.mem_map_of_mem Artwork.id hx)
    · have hne : (a.id == id) = false := by simp [hp]
      simp only [removeFirst, hne, Bool.false_eq_true, if_false]
      rw [List.find?_cons_of_neg _ (by simp [hp])]
      exact ih ht

/-- C7: for every delete request with a well-formed id, when no artwork
matches the operation reports NotFound and leaves both collections
untouched; when an artwork matches, afterwards get-by-id answers NotFound,
no Favorite record with that artwork id remains, and the favorited-state
query answers false for every user. -/
theorem c7_delete_cascade (db : DB) (id uid : String)
    (hv : isValidObjectId id = true)
    (hnodup : (db.artworks.map Artwork.id).Nodup) :
    ((∀ a ∈ db.artworks, a.id ≠ id) →
      deleteHandler db id = (db, SimpleResult.notFound, 1)) ∧
    ((∃ a ∈ db.artworks, a.id = id) →
      (deleteHandler db id).2.1 = SimpleResult.ok ∧
      getArtworkById (deleteHandler db id).1 id = (GetResult.notFound, 1) ∧
      (∀ f ∈ (deleteHandler db id).1.favorites, f.artworkId ≠ id) ∧
      favStateHandler (deleteHandler db id).1 id uid = (BoolResult.ok false, 1)) := by
  constructor
  · intro hno
    have hany : db.artworks.any (fun a => a.id == id) = false := by
      rw [List.any_eq_false]
      intro a ha
      simp [hno a ha]
    simp [deleteHandler, hv, hany]
  · rintro ⟨a, ha, hid⟩
    have hany : db.artworks.any (fun x => x.id == id) = true :=
      List.any_eq_true.mpr ⟨a, ha, by simp [hid]⟩
    have hdel : deleteHandler db id =
        ({ artworks := removeFirst (fun x => x.id == id) db.artworks,
           favorites := db.favorites.filter (fun f => !(f.artworkId == id)) },
         SimpleResult.ok, 2) := by
      simp [deleteHandler, hv, hany]
    rw [hdel]
    refine ⟨rfl, ?_, ?_, ?_⟩
    · simp only [getArtworkById, hv, if_true]
      rw [find?_removeFirst_of_nodup db.artworks id hnodup]
    · intro f hf
      rcases List.mem_filter.mp hf with ⟨_, hne⟩
      simpa using hne
    · simp only [favStateHandler, hv, if_true]
      have hnofav : (db.favorites.filter (fun f => !(f.artworkId == id))).any
          (favMatch id uid) = false := by
        rw [List.any_eq_false]
        intro f hf
        rcases List.mem_filter.mp hf with ⟨_, hne⟩
        simp [favMatch]
        intro hEq
        simp [hEq] at hne
      rw [hnofav]

/-- Witness for C7 at a concrete database with one artwork and one favorite
of it. -/
theorem c7_delete_cascade_witness :
    ((∀ a ∈ sampleDB2.artworks, a.id ≠ validId) →
      deleteHandler sampleDB2 validId = (sampleDB2, SimpleResult.notFound, 1)) ∧
    ((∃ a ∈ sampleDB2.artworks, a.id = validId) →
      (deleteHandler sampleDB2 validId).2.1 = SimpleResult.ok ∧
      getArtworkById (deleteHandler sampleDB2 validId).1 validId = (GetResult.notFound, 1) ∧
      (∀ f ∈ (deleteHandler sampleDB2 validId).1.favorites, f.artworkId ≠ validId) ∧
      favStateHandler (deleteHandler sampleDB2 validId).1 validId "u2" =
        (BoolResult.ok false, 1)) :=
  c7_delete_cascade sampleDB2 validId "u2" (by decide) (by decide)

/-- C8: the featured listing returns at most 6 records, ordered by
`createdAt` descending, and they dominate the rest of the collection: the
remaining records (a permutation complement) all have `createdAt` no greater
than any returned record. -/
theorem c8_featured_top6 (db : DB) :
    (featuredArtworks db).length ≤ 6 ∧
    (featuredArtworks db).Pairwise (fun a b => b.createdAt ≤ a.createdAt) ∧
    ∃ rest : List Artwork,
      (featuredArtworks db ++ rest).Perm db.artworks ∧
      ∀ a ∈ featuredArtworks db, ∀ b ∈ rest, b.createdAt ≤ a.createdAt := by
  have htrans : ∀ (a b c : Artwork),
      byCreatedAtDesc a b → byCreatedAtDesc b c → byCreatedAtDesc a c := by
    intro a b c hab hbc
    simp only [byCreatedAtDesc, decide_eq_true_eq] at *
    omega
  have htotal : ∀ (a b : Artwork), byCreatedAtDesc a b || byCreatedAtDesc b a := by
    intro a b
    simp only [byCreatedAtDesc, Bool.or_eq_true, decide_eq_true_eq]
    omega
  have hsorted : (db.artworks.mergeSort byCreatedAtDesc).Pairwise
      (fun a b => byCreatedAtDesc a b) :=
    List.sorted_mergeSort htrans htotal db.artworks
  refine ⟨?_, ?_, (db.artworks.mergeSort byCreatedAtDesc).drop 6, ?_, ?_⟩
  · simp only [featuredArtworks, List.length_take]
    omega
  · have hp : ((db.artworks.mergeSort byCreatedAtDesc).take 6).Pairwise
        (fun a b => byCreatedAtDesc a b) :=
      hsorted.sublist (List.take_sublist 6 _)
    refine hp.imp ?_
    intro a b hab
    simpa [byCreatedAtDesc] using hab
  · rw [featuredArtworks, List.take_append_drop]
    exact List.mergeSort_perm db.artworks byCreatedAtDesc
  · intro a hA b hB
    have hp := hsorted
    rw [← List.take_append_drop 6 (db.artworks.mergeSort byCreatedAtDesc)] at hp
    have := (List.pairwise_append.mp hp).2.2 a hA b hB
    simpa [byCreatedAtDesc] using this

/-- C9 counterexample: the featured route is not the legacy arts route, yet
its success response is a bare array rather than a `success: true`
envelope. -/
theorem c9_envelope_counterexample :
    successBodyShape Route.featured = BodyShape.bareArray ∧
    Route.featured ≠ Route.arts ∧
    BodyShape.bareArray ≠ BodyShape.envelope := by
  refine ⟨rfl, ?_, ?_⟩
  · decide
  · decide

/-- C9 (amended): a route's success response is a `success: true` envelope
exactly when the route is none of the legacy `/arts` route, the featured
listing (which also sends a bare array), and the `/` and `/health` probes
(which send objects without a `success` field). -/
theorem c9_envelope_amended (r : Route) :
    successBodyShape r = BodyShape.envelope ↔
      r ≠ Route.arts ∧ r ≠ Route.featured ∧ r ≠ Route.root ∧ r ≠ Route.health := by
  cases r <;> simp [successBodyShape]

/-- C10: a successful update leaves every stored record's `likesCount`,
`likedBy`, `createdAt`, `userName` and `userEmail` fields equal to those of
a record previously in the store: the replacement set covers only the
submitted content fields and `updatedAt`. -/
theorem c10_update_frame (db : DB) (id : String) (u : UpdateBody) (now : Nat)
    (hok : (updateHandler db id u now).2.1 = SimpleResult.ok) :
    ∀ a₂ ∈ (updateHandler db id u now).1.artworks,
      ∃ a₁ ∈ db.artworks,
        a₂.likesCount = a₁.likesCount ∧ a₂.likedBy = a₁.likedBy ∧
        a₂.createdAt = a₁.createdAt ∧ a₂.userName = a₁.userName ∧
        a₂.userEmail = a₁.userEmail := by
  intro a₂ ha₂
  by_cases hv : isValidObjectId id
  · cases hf : db.artworks.find? (fun x => x.id == id) with
    | none =>
      have hsame : (updateHandler db id u now).1 = db := by
        simp [updateHandler, hv, hf]
      rw [hsame] at ha₂
      exact ⟨a₂, ha₂, rfl, rfl, rfl, rfl, rfl⟩
    | some a =>
      have h1 : (updateHandler db id u now).1.artworks =
          updateFirst (fun x => x.id == id) (fun x => applyUpdate x u now) db.artworks := by
        simp [updateHandler, hv, hf]
      rw [h1] at ha₂
      rcases mem_updateFirst ha₂ with h | ⟨a₁, ha₁, rfl⟩
      · exact ⟨a₂, h, rfl, rfl, rfl, rfl, rfl⟩
      · exact ⟨a₁, ha₁, rfl, rfl, rfl, rfl, rfl⟩
  · have hbad : (updateHandler db id u now).2.1 = SimpleResult.badRequest := by
      simp [updateHandler, Bool.eq_false_iff.mpr hv]
    rw [hbad] at hok
    cases hok

/-- Witness for C10 at a concrete database, id and update body. -/
theorem c10_update_frame_witness :
    applyUpdate sampleArtwork sampleUpdate 7 ∈
      (updateHandler sampleDB validId sampleUpdate 7).1.artworks ∧
    ∃ a₁ ∈ sampleDB.artworks,
      (applyUpdate sampleArtwork sampleUpdate 7).likesCount = a₁.likesCount ∧
      (applyUpdate sampleArtwork sampleUpdate 7).likedBy = a₁.likedBy ∧
      (applyUpdate sampleArtwork sampleUpdate 7).createdAt = a₁.createdAt ∧
      (applyUpdate sampleArtwork sampleUpdate 7).userName = a₁.userName ∧
      (applyUpdate sampleArtwork sampleUpdate 7).userEmail = a₁.userEmail :=
  ⟨by decide,
   c10_update_frame sampleDB validId sampleUpdate 7 (by decide) _ (by decide)⟩

end Artify
